import Mathlib

/-!
# Verification of the benchmark sweep driver (`run/testFramework.py`)

A shallow embedding of the driver script of the repository
`probabilistic-data-structures`.  Text is modelled as `List Char`
(Python `str`), Python `int` as `Int`/`Nat`, `None`-able values as
`Option`, and the two external effects (the worker's standard output
and the two CPU samples per invocation) as explicit oracle functions.
CPU percentages are modelled as rationals.

All definitions in the `TestFramework` namespace are translated
directly from the source file.
-/

namespace TestFramework

/-- Python whitespace characters stripped by `str.strip()` (ASCII range;
the script only ever sees ASCII configuration text). -/
def pyIsSpace (c : Char) : Bool :=
  c = ' ' || c = '\t' || c = '\n' || c = '\x0d' || c = '\x0b' || c = '\x0c'

/-- Python `str.strip()`: remove leading and trailing whitespace. -/
def pyStrip (l : List Char) : List Char :=
  ((l.dropWhile pyIsSpace).reverse.dropWhile pyIsSpace).reverse

/-- Python `s.startswith(p)`. -/
def pyStartswith (p l : List Char) : Bool :=
  p.isPrefixOf l

/-- Python `range(start, stop, step)` for a positive step. -/
def pythonRange (start stop step : Nat) : List Nat :=
  (List.range ((stop - start + (step - 1)) / step)).map fun i => start + step * i

/-- `query_sizes = range(1000000, 2100000, 100000)` from the source. -/
def query_sizes : List Nat :=
  pythonRange 1000000 2100000 100000

/-- `operations = ['insert', 'search', 'delete']` from the source. -/
def operations : List (List Char) :=
  ["insert".data, "search".data, "delete".data]

/-- The `data_structures` dict from the source, as an insertion-ordered
association list (Python dicts preserve insertion order).  The strings
`BloomFiler` and `CuckooFiler` are the source's literal spellings. -/
def data_structures : List (List Char × List (List Char)) :=
  [("ConcurrentSkipList".data, ["insert".data, "search".data, "delete".data]),
   ("BloomFiler".data,         ["insert".data, "search".data, "delete".data]),
   ("CuckooFiler".data,        ["insert".data, "search".data, "delete".data])]

/-- The per-line body of the configuration-rewrite loop: the
`if line.strip().startswith(...)` / `elif` / `else` chain that decides
what gets written for one input line. -/
def updateLine (op : List Char) (query_size : Nat) (ds_type : List Char)
    (line : List Char) : List Char :=
  if pyStartswith "operation".data (pyStrip line) then
    "operation = ".data ++ op ++ ['\n']
  else if pyStartswith "querySize".data (pyStrip line) then
    "querySize = ".data ++ (toString query_size).data ++ ['\n']
  else if pyStartswith "datastructures.type".data (pyStrip line) then
    "datastructures.type = ".data ++ ds_type ++ ['\n']
  else
    line

/-- The configuration-rewrite loop: `for line in lines: file.write(...)`,
one output line per input line. -/
def rewriteConfig (op : List Char) (query_size : Nat) (ds_type : List Char) :
    List (List Char) → List (List Char)
  | [] => []
  | line :: rest =>
      updateLine op query_size ds_type line :: rewriteConfig op query_size ds_type rest

theorem rewriteConfig_eq_map (op : List Char) (query_size : Nat) (ds_type : List Char)
    (lines : List (List Char)) :
    rewriteConfig op query_size ds_type lines = lines.map (updateLine op query_size ds_type) := by
  induction lines with
  | nil => rfl
  | cons l t ih => simp [rewriteConfig, ih]

/-- The value of a digit string, as produced by Python `int()` on a
group matched by `\d+`. -/
def natFromDigits (ds : List Char) : Nat :=
  ds.foldl (fun a c => 10 * a + (c.toNat - '0'.toNat)) 0

/-- Regex match anchored at the start of `l`: the literal `lit`, then a
nonempty digit run (`\d+`, restricted to ASCII digits as in the
script's actual outputs), then the literal `suf`; returns the captured
group's value.  Since `suf` begins with a non-digit in both uses, the
greedy maximal digit run is the only candidate. -/
def matchAt (lit suf l : List Char) : Option Nat :=
  if lit.isPrefixOf l then
    let rest := l.drop lit.length
    let ds := rest.takeWhile Char.isDigit
    if ds ≠ [] ∧ suf.isPrefixOf (rest.drop ds.length) then some (natFromDigits ds)
    else none
  else none

/-- `re.search`: the leftmost position at which the pattern matches. -/
def reSearch (lit suf : List Char) : List Char → Option Nat
  | [] => matchAt lit suf []
  | c :: t =>
      match matchAt lit suf (c :: t) with
      | some n => some n
      | none => reSearch lit suf t

/-- The output-scraping block of the source: guard `if stdout:`, then
`re.search(r'Execution time: (\d+) ms', stdout)` and
`re.search(r'Memory used: (\d+) MB', stdout)`, converting each captured
group with `int()`. -/
def extractMetrics (stdout : List Char) : Option Int × Option Int :=
  if stdout = [] then (none, none)
  else
    ((reSearch "Execution time: ".data " ms".data stdout).map Int.ofNat,
     (reSearch "Memory used: ".data " MB".data stdout).map Int.ofNat)

/-- One element of the `results` list built by the sweep loop
(the dict appended by `results.append({...})`). -/
structure Record where
  querySize : Nat
  operation : List Char
  datastructures_type : List Char
  execution_time_ms : Option Int
  memory_used_mb : Option Int
  cpu_usage_percent : ℚ
  deriving DecidableEq, Repr

/-- The record assembled for one non-skipped sweep point, given the
worker's standard output and the two CPU samples bracketing the
invocation. -/
def mkRecord (stdoutOf : Nat → List Char → List Char → List Char)
    (cpuOf : Nat → List Char → List Char → ℚ × ℚ)
    (k : Nat × List Char × List Char) : Record :=
  let em := extractMetrics (stdoutOf k.1 k.2.1 k.2.2)
  { querySize := k.1
    operation := k.2.2
    datastructures_type := k.2.1
    execution_time_ms := em.1
    memory_used_mb := em.2
    cpu_usage_percent := ((cpuOf k.1 k.2.1 k.2.2).1 + (cpuOf k.1 k.2.1 k.2.2).2) / 2 }

/-- The nested sweep loop of the source, producing the `results` list.
The worker process and the two `psutil.cpu_percent` samples are the
script's only external inputs, passed here as oracles (`stdoutOf` gives
the captured standard output of the invocation at a sweep point,
`cpuOf` the two CPU samples).  The `continue` for
`ds_type == 'BloomFiler' and op == 'delete'` is the `none` branch. -/
def runSweep (stdoutOf : Nat → List Char → List Char → List Char)
    (cpuOf : Nat → List Char → List Char → ℚ × ℚ) : List Record :=
  query_sizes.flatMap fun query_size =>
    data_structures.flatMap fun p =>
      p.2.filterMap fun op =>
        if p.1 = "BloomFiler".data ∧ op = "delete".data then none
        else some (mkRecord stdoutOf cpuOf (query_size, p.1, op))

/-- The sweep points in enumeration order (the loop iterations that
produce a record). -/
def sweepKeys : List (Nat × List Char × List Char) :=
  query_sizes.flatMap fun query_size =>
    data_structures.flatMap fun p =>
      p.2.filterMap fun op =>
        if p.1 = "BloomFiler".data ∧ op = "delete".data then none
        else some (query_size, p.1, op)

theorem runSweep_eq_map (stdoutOf : Nat → List Char → List Char → List Char)
    (cpuOf : Nat → List Char → List Char → ℚ × ℚ) :
    runSweep stdoutOf cpuOf = sweepKeys.map (mkRecord stdoutOf cpuOf) := by
  simp only [runSweep, sweepKeys, List.map_flatMap]
  refine List.flatMap_congr fun qs _ => ?_
  refine List.flatMap_congr fun p _ => ?_
  rw [List.map_filterMap]
  refine List.filterMap_congr fun op _ => ?_
  split <;> rfl

/-- The identifying triple of a record. -/
def Record.key (r : Record) : Nat × List Char × List Char :=
  (r.querySize, r.datastructures_type, r.operation)

theorem key_mkRecord (stdoutOf : Nat → List Char → List Char → List Char)
    (cpuOf : Nat → List Char → List Char → ℚ × ℚ) (k : Nat × List Char × List Char) :
    (mkRecord stdoutOf cpuOf k).key = k := by
  simp [mkRecord, Record.key]

theorem map_key_runSweep (stdoutOf : Nat → List Char → List Char → List Char)
    (cpuOf : Nat → List Char → List Char → ℚ × ℚ) :
    (runSweep stdoutOf cpuOf).map Record.key = sweepKeys := by
  rw [runSweep_eq_map, List.map_map]
  have h : Record.key ∘ mkRecord stdoutOf cpuOf = id := funext fun k => key_mkRecord _ _ k
  rw [h, List.map_id]

theorem filter_querySize (stdoutOf : Nat → List Char → List Char → List Char)
    (cpuOf : Nat → List Char → List Char → ℚ × ℚ) (n : Nat) :
    (runSweep stdoutOf cpuOf).filter (fun r => r.querySize == n)
      = (sweepKeys.filter (fun k => k.1 == n)).map (mkRecord stdoutOf cpuOf) := by
  rw [runSweep_eq_map, List.filter_map]
  congr 1

/-- Modelled from the spec's enumeration policy (§4.1), for comparison
with the code's enumeration order: querySize over the closed range
1,000,000 .. 2,000,000 in steps of 100,000 (11 values), then structure
types in declared order, then the fixed operation order insert, search,
delete, skipping (bloom filter, delete). -/
def reportOrderSpec : List (Nat × List Char × List Char) :=
  (List.range' 1000000 11 100000).flatMap fun qs =>
    (data_structures.map Prod.fst).flatMap fun ds =>
      (["insert".data, "search".data, "delete".data].filterMap fun op =>
        if ds = "BloomFiler".data ∧ op = "delete".data then none else some (qs, ds, op))

/-- C1: a full sweep produces exactly 8 records for each of the 11
querySize values (88 in total), and the report lists them in exact
enumeration order: querySize ascending, then structure type in declared
order, then operation in declared order. -/
theorem report_shape_and_order (stdoutOf : Nat → List Char → List Char → List Char)
    (cpuOf : Nat → List Char → List Char → ℚ × ℚ) :
    query_sizes.length = 11 ∧
    List.Chain' (· < ·) query_sizes ∧
    (runSweep stdoutOf cpuOf).length = 88 ∧
    (∀ n ∈ query_sizes,
      ((runSweep stdoutOf cpuOf).filter (fun r => r.querySize == n)).length = 8) ∧
    (runSweep stdoutOf cpuOf).map Record.key = reportOrderSpec := by
  have hq : query_sizes = [1000000, 1100000, 1200000, 1300000, 1400000, 1500000,
      1600000, 1700000, 1800000, 1900000, 2000000] := by decide
  refine ⟨by decide, ?_, ?_, ?_, ?_⟩
  · rw [hq]
    norm_num [List.chain'_cons]
  · rw [runSweep_eq_map, List.length_map]
    decide
  · intro n hn
    rw [filter_querySize, List.length_map]
    rw [hq] at hn
    fin_cases hn <;> decide
  · rw [map_key_runSweep]
    decide

theorem report_shape_and_order_witness :
    (1000000 ∈ query_sizes) ∧
    ((runSweep (fun _ _ _ => []) (fun _ _ _ => (0, 0))).filter
        (fun r => r.querySize == 1000000)).length = 8 :=
  ⟨by decide,
   (report_shape_and_order (fun _ _ _ => []) (fun _ _ _ => (0, 0))).2.2.2.1 1000000 (by decide)⟩

/-- A worker whose standard output is always empty (e.g. a crashed
worker); used to instantiate the oracle at concrete inputs. -/
def emptyOut : Nat → List Char → List Char → List Char :=
  fun _ _ _ => []

/-- Concrete CPU samples: 30% before, 50% after every invocation. -/
def constCpu : Nat → List Char → List Char → ℚ × ℚ :=
  fun _ _ _ => (30, 50)

/-- C2: no record of the report pairs the bloom-filter structure with
the delete operation (stated both for the spelling `BloomFilter` used
by the spec and for the source's literal spelling `BloomFiler`); the
skipped combination contributes no record. -/
theorem no_bloom_delete (stdoutOf : Nat → List Char → List Char → List Char)
    (cpuOf : Nat → List Char → List Char → ℚ × ℚ) (r : Record)
    (hr : r ∈ runSweep stdoutOf cpuOf) :
    ¬(r.datastructures_type = "BloomFilter".data ∧ r.operation = "delete".data) ∧
    ¬(r.datastructures_type = "BloomFiler".data ∧ r.operation = "delete".data) := by
  rw [runSweep_eq_map] at hr
  obtain ⟨k, hk, rfl⟩ := List.mem_map.1 hr
  have h : ∀ k ∈ sweepKeys,
      ¬(k.2.1 = "BloomFilter".data ∧ k.2.2 = "delete".data) ∧
      ¬(k.2.1 = "BloomFiler".data ∧ k.2.2 = "delete".data) := by decide
  simpa [mkRecord] using h k hk

theorem no_bloom_delete_witness :
    ¬((mkRecord emptyOut constCpu (1000000, "BloomFiler".data, "insert".data)).datastructures_type
        = "BloomFilter".data ∧
      (mkRecord emptyOut constCpu (1000000, "BloomFiler".data, "insert".data)).operation
        = "delete".data) ∧
    ¬((mkRecord emptyOut constCpu (1000000, "BloomFiler".data, "insert".data)).datastructures_type
        = "BloomFiler".data ∧
      (mkRecord emptyOut constCpu (1000000, "BloomFiler".data, "insert".data)).operation
        = "delete".data) :=
  no_bloom_delete emptyOut constCpu _
    (by rw [runSweep_eq_map]; exact List.mem_map_of_mem _ (by decide))

/-- C3, counterexample: the report contains a record whose structure
type is none of the three names `ConcurrentSkipList`, `BloomFilter`,
`CuckooFilter` claimed by the spec — the source's literal strings are
`BloomFiler` and `CuckooFiler`. -/
theorem structure_type_names_counterexample :
    ∃ r ∈ runSweep emptyOut constCpu,
      r.datastructures_type ∉
        ["ConcurrentSkipList".data, "BloomFilter".data, "CuckooFilter".data] := by
  rw [runSweep_eq_map]
  refine ⟨mkRecord emptyOut constCpu (1000000, "BloomFiler".data, "insert".data),
    List.mem_map_of_mem _ (by decide), ?_⟩
  simp only [mkRecord]
  decide

/-- C3, amended: every record's structure type is one of the source's
three declared strings `ConcurrentSkipList`, `BloomFiler`,
`CuckooFiler` (the latter two evidently misspellings of `BloomFilter`
and `CuckooFilter`), and within each querySize the structure types
occur in exactly that declared order. -/
theorem structure_types_declared (stdoutOf : Nat → List Char → List Char → List Char)
    (cpuOf : Nat → List Char → List Char → ℚ × ℚ) :
    (∀ r ∈ runSweep stdoutOf cpuOf,
      r.datastructures_type ∈
        ["ConcurrentSkipList".data, "BloomFiler".data, "CuckooFiler".data]) ∧
    (∀ n ∈ query_sizes,
      ((runSweep stdoutOf cpuOf).filter (fun r => r.querySize == n)).map
          (fun r => r.datastructures_type)
        = ["ConcurrentSkipList".data, "ConcurrentSkipList".data, "ConcurrentSkipList".data,
           "BloomFiler".data, "BloomFiler".data,
           "CuckooFiler".data, "CuckooFiler".data, "CuckooFiler".data]) := by
  constructor
  · intro r hr
    rw [runSweep_eq_map] at hr
    obtain ⟨k, hk, rfl⟩ := List.mem_map.1 hr
    have h : ∀ k ∈ sweepKeys,
        k.2.1 ∈ ["ConcurrentSkipList".data, "BloomFiler".data, "CuckooFiler".data] := by
      decide
    simpa [mkRecord] using h k hk
  · intro n hn
    rw [filter_querySize, List.map_map]
    have hf : ((fun r => r.datastructures_type) ∘ mkRecord stdoutOf cpuOf)
        = fun k : Nat × List Char × List Char => k.2.1 :=
      funext fun k => by simp [mkRecord]
    rw [hf]
    have hq : query_sizes = [1000000, 1100000, 1200000, 1300000, 1400000, 1500000,
        1600000, 1700000, 1800000, 1900000, 2000000] := by decide
    rw [hq] at hn
    fin_cases hn <;> decide

theorem structure_types_declared_witness :
    ((mkRecord emptyOut constCpu (1000000, "CuckooFiler".data, "search".data)).datastructures_type
       ∈ ["ConcurrentSkipList".data, "BloomFiler".data, "CuckooFiler".data]) ∧
    ((runSweep emptyOut constCpu).filter (fun r => r.querySize == 1000000)).map
        (fun r => r.datastructures_type)
      = ["ConcurrentSkipList".data, "ConcurrentSkipList".data, "ConcurrentSkipList".data,
         "BloomFiler".data, "BloomFiler".data,
         "CuckooFiler".data, "CuckooFiler".data, "CuckooFiler".data] :=
  ⟨(structure_types_declared emptyOut constCpu).1 _
      (by rw [runSweep_eq_map]; exact List.mem_map_of_mem _ (by decide)),
   (structure_types_declared emptyOut constCpu).2 1000000 (by decide)⟩

/-- C4: the rewrite maps each line through the key-matching rule and
copies every other line unchanged; line order is preserved and no lines
are added or removed. -/
theorem rewrite_per_line (op : List Char) (query_size : Nat) (ds_type : List Char)
    (lines : List (List Char)) :
    (rewriteConfig op query_size ds_type lines).length = lines.length ∧
    ∀ (i : Nat) (line : List Char), lines[i]? = some line →
      (rewriteConfig op query_size ds_type lines)[i]? = some
        (if pyStartswith "operation".data (pyStrip line) then
          "operation = ".data ++ op ++ ['\n']
        else if pyStartswith "querySize".data (pyStrip line) then
          "querySize = ".data ++ (toString query_size).data ++ ['\n']
        else if pyStartswith "datastructures.type".data (pyStrip line) then
          "datastructures.type = ".data ++ ds_type ++ ['\n']
        else line) := by
  rw [rewriteConfig_eq_map]
  refine ⟨List.length_map _ _, fun i line h => ?_⟩
  rw [List.getElem?_map, h]
  rfl

theorem rewrite_per_line_witness :
    ([" querySize=9\n".data, "keep this\n".data][0]? = some " querySize=9\n".data) ∧
    (rewriteConfig "insert".data 1500000 "CuckooFiler".data
        [" querySize=9\n".data, "keep this\n".data]).length = 2 ∧
    (rewriteConfig "insert".data 1500000 "CuckooFiler".data
        [" querySize=9\n".data, "keep this\n".data])[0]?
      = some "querySize = 1500000\n".data ∧
    (rewriteConfig "insert".data 1500000 "CuckooFiler".data
        [" querySize=9\n".data, "keep this\n".data])[1]?
      = some "keep this\n".data :=
  ⟨by decide,
   (rewrite_per_line "insert".data 1500000 "CuckooFiler".data
     [" querySize=9\n".data, "keep this\n".data]).1,
   ((rewrite_per_line "insert".data 1500000 "CuckooFiler".data
     [" querySize=9\n".data, "keep this\n".data]).2 0 " querySize=9\n".data
       (by decide)).trans (by decide),
   ((rewrite_per_line "insert".data 1500000 "CuckooFiler".data
     [" querySize=9\n".data, "keep this\n".data]).2 1 "keep this\n".data
       (by decide)).trans (by decide)⟩

theorem isPrefixOf_false_of_head_ne {a b : Char} (as bs s : List Char) (hab : a ≠ b)
    (h : (a :: as).isPrefixOf s = true) : (b :: bs).isPrefixOf s = false := by
  cases s with
  | nil => simp [List.isPrefixOf] at h
  | cons c t =>
      simp only [List.isPrefixOf, Bool.and_eq_true, beq_iff_eq] at h
      simp only [List.isPrefixOf, Bool.and_eq_false_iff]
      exact Or.inl (beq_eq_false_iff_ne.mpr fun hbc => hab (h.1.trans hbc.symm))

/-- C10: every line whose trimmed content starts with a recognized key
is rewritten — not only the first such line — so duplicated key lines
are all rewritten to the identical text, none are collapsed, and the
number of output lines equals the number of input lines. -/
theorem rewrite_all_matching_lines (op : List Char) (query_size : Nat) (ds_type : List Char)
    (lines : List (List Char)) :
    (rewriteConfig op query_size ds_type lines).length = lines.length ∧
    ∀ (i : Nat) (line : List Char), lines[i]? = some line →
      (pyStartswith "operation".data (pyStrip line) = true →
        (rewriteConfig op query_size ds_type lines)[i]?
          = some ("operation = ".data ++ op ++ ['\n'])) ∧
      (pyStartswith "querySize".data (pyStrip line) = true →
        (rewriteConfig op query_size ds_type lines)[i]?
          = some ("querySize = ".data ++ (toString query_size).data ++ ['\n'])) ∧
      (pyStartswith "datastructures.type".data (pyStrip line) = true →
        (rewriteConfig op query_size ds_type lines)[i]?
          = some ("datastructures.type = ".data ++ ds_type ++ ['\n'])) := by
  rw [rewriteConfig_eq_map]
  refine ⟨List.length_map _ _, fun i line h => ?_⟩
  rw [List.getElem?_map, h]
  refine ⟨fun h1 => ?_, fun h2 => ?_, fun h3 => ?_⟩
  · simp [updateLine, h1]
  · have h1 : pyStartswith "operation".data (pyStrip line) = false := by
      have : "querySize".data = 'q' :: "uerySize".data := rfl
      rw [this] at h2
      exact isPrefixOf_false_of_head_ne _ _ _ (by decide) h2
    simp [updateLine, h1, h2]
  · have h1 : pyStartswith "operation".data (pyStrip line) = false := by
      have : "datastructures.type".data = 'd' :: "atastructures.type".data := rfl
      rw [this] at h3
      exact isPrefixOf_false_of_head_ne _ _ _ (by decide) h3
    have h2 : pyStartswith "querySize".data (pyStrip line) = false := by
      have : "datastructures.type".data = 'd' :: "atastructures.type".data := rfl
      rw [this] at h3
      exact isPrefixOf_false_of_head_ne _ _ _ (by decide) h3
    simp [updateLine, h1, h2, h3]

theorem rewrite_all_matching_lines_witness :
    (["operation=a\n".data, "x = 1\n".data, "  operation = b\n".data][0]?
       = some "operation=a\n".data) ∧
    (["operation=a\n".data, "x = 1\n".data, "  operation = b\n".data][2]?
       = some "  operation = b\n".data) ∧
    pyStartswith "operation".data (pyStrip "operation=a\n".data) = true ∧
    pyStartswith "operation".data (pyStrip "  operation = b\n".data) = true ∧
    (rewriteConfig "search".data 1200000 "BloomFiler".data
        ["operation=a\n".data, "x = 1\n".data, "  operation = b\n".data]).length = 3 ∧
    (rewriteConfig "search".data 1200000 "BloomFiler".data
        ["operation=a\n".data, "x = 1\n".data, "  operation = b\n".data])[0]?
      = some "operation = search\n".data ∧
    (rewriteConfig "search".data 1200000 "BloomFiler".data
        ["operation=a\n".data, "x = 1\n".data, "  operation = b\n".data])[2]?
      = some "operation = search\n".data :=
  ⟨by decide, by decide, by decide, by decide,
   (rewrite_all_matching_lines "search".data 1200000 "BloomFiler".data
     ["operation=a\n".data, "x = 1\n".data, "  operation = b\n".data]).1,
   (((rewrite_all_matching_lines "search".data 1200000 "BloomFiler".data
     ["operation=a\n".data, "x = 1\n".data, "  operation = b\n".data]).2 0
       "operation=a\n".data (by decide)).1 (by decide)).trans (by decide),
   (((rewrite_all_matching_lines "search".data 1200000 "BloomFiler".data
     ["operation=a\n".data, "x = 1\n".data, "  operation = b\n".data]).2 2
       "  operation = b\n".data (by decide)).1 (by decide)).trans (by decide)⟩

theorem updateLine_idem (op : List Char) (query_size : Nat) (ds_type : List Char)
    (h1 : pyStartswith "operation".data
      (pyStrip ("operation = ".data ++ op ++ ['\n'])) = true)
    (h2 : pyStartswith "operation".data
      (pyStrip ("querySize = ".data ++ (toString query_size).data ++ ['\n'])) = false)
    (h3 : pyStartswith "querySize".data
      (pyStrip ("querySize = ".data ++ (toString query_size).data ++ ['\n'])) = true)
    (h4 : pyStartswith "operation".data
      (pyStrip ("datastructures.type = ".data ++ ds_type ++ ['\n'])) = false)
    (h5 : pyStartswith "querySize".data
      (pyStrip ("datastructures.type = ".data ++ ds_type ++ ['\n'])) = false)
    (h6 : pyStartswith "datastructures.type".data
      (pyStrip ("datastructures.type = ".data ++ ds_type ++ ['\n'])) = true)
    (line : List Char) :
    updateLine op query_size ds_type (updateLine op query_size ds_type line)
      = updateLine op query_size ds_type line := by
  have n2 : ¬ pyStartswith "operation".data
      (pyStrip ("querySize = ".data ++ (toString query_size).data ++ ['\n'])) = true := by
    rw [h2]
    simp
  have n4 : ¬ pyStartswith "operation".data
      (pyStrip ("datastructures.type = ".data ++ ds_type ++ ['\n'])) = true := by
    rw [h4]
    simp
  have n5 : ¬ pyStartswith "querySize".data
      (pyStrip ("datastructures.type = ".data ++ ds_type ++ ['\n'])) = true := by
    rw [h5]
    simp
  by_cases a : pyStartswith "operation".data (pyStrip line) = true
  · unfold updateLine
    rw [if_pos a, if_pos h1]
  · by_cases b : pyStartswith "querySize".data (pyStrip line) = true
    · unfold updateLine
      rw [if_pos b, if_neg a, if_neg n2, if_pos h3]
    · by_cases c : pyStartswith "datastructures.type".data (pyStrip line) = true
      · unfold updateLine
        rw [if_pos c, if_neg a, if_neg b, if_neg n4, if_neg n5, if_pos h6]
      · unfold updateLine
        rw [if_neg a, if_neg b, if_neg c, if_neg a, if_neg b, if_neg c]

/-- C5: for every file content and every sweep value of
(op, querySize, structureType), applying the configuration rewrite
twice yields the same result as applying it once; non-key lines are
never reordered or duplicated. -/
theorem rewrite_idempotent (op ds_type : List Char) (query_size : Nat)
    (hop : op ∈ operations) (hds : ds_type ∈ data_structures.map Prod.fst)
    (hqs : query_size ∈ query_sizes) (lines : List (List Char)) :
    rewriteConfig op query_size ds_type (rewriteConfig op query_size ds_type lines)
      = rewriteConfig op query_size ds_type lines := by
  have hq : query_sizes = [1000000, 1100000, 1200000, 1300000, 1400000, 1500000,
      1600000, 1700000, 1800000, 1900000, 2000000] := by decide
  rw [hq] at hqs
  have hop' : op = "insert".data ∨ op = "search".data ∨ op = "delete".data := by
    simpa [operations] using hop
  have hds' : ds_type = "ConcurrentSkipList".data ∨ ds_type = "BloomFiler".data ∨
      ds_type = "CuckooFiler".data := by
    simpa [data_structures] using hds
  have h1 : pyStartswith "operation".data
      (pyStrip ("operation = ".data ++ op ++ ['\n'])) = true := by
    rcases hop' with rfl | rfl | rfl <;> decide
  have h2 : pyStartswith "operation".data
      (pyStrip ("querySize = ".data ++ (toString query_size).data ++ ['\n'])) = false := by
    fin_cases hqs <;> decide
  have h3 : pyStartswith "querySize".data
      (pyStrip ("querySize = ".data ++ (toString query_size).data ++ ['\n'])) = true := by
    fin_cases hqs <;> decide
  have h4 : pyStartswith "operation".data
      (pyStrip ("datastructures.type = ".data ++ ds_type ++ ['\n'])) = false := by
    rcases hds' with rfl | rfl | rfl <;> decide
  have h5 : pyStartswith "querySize".data
      (pyStrip ("datastructures.type = ".data ++ ds_type ++ ['\n'])) = false := by
    rcases hds' with rfl | rfl | rfl <;> decide
  have h6 : pyStartswith "datastructures.type".data
      (pyStrip ("datastructures.type = ".data ++ ds_type ++ ['\n'])) = true := by
    rcases hds' with rfl | rfl | rfl <;> decide
  rw [rewriteConfig_eq_map, rewriteConfig_eq_map, List.map_map]
  congr 1
  funext l
  exact updateLine_idem op query_size ds_type h1 h2 h3 h4 h5 h6 l

theorem rewrite_idempotent_witness :
    ("insert".data ∈ operations) ∧
    ("BloomFiler".data ∈ data_structures.map Prod.fst) ∧
    (1000000 ∈ query_sizes) ∧
    rewriteConfig "insert".data 1000000 "BloomFiler".data
        (rewriteConfig "insert".data 1000000 "BloomFiler".data
          ["operation = x\n".data, "note\n".data])
      = rewriteConfig "insert".data 1000000 "BloomFiler".data
          ["operation = x\n".data, "note\n".data] :=
  ⟨by decide, by decide, by decide,
   rewrite_idempotent "insert".data "BloomFiler".data 1000000
     (by decide) (by decide) (by decide) _⟩

/-- C6: scraping takes the first substring of the captured standard
output matching `Execution time: <integer> ms` as the execution time
and, independently, the first match of `Memory used: <integer> MB` as
the memory figure; on output containing
`Execution time: 1234 ms\nMemory used: 56 MB\n` the resulting record
has executionTimeMs = 1234 and memoryUsedMb = 56. -/
theorem scrape_first_match :
    extractMetrics "Execution time: 1234 ms\nMemory used: 56 MB\n".data
      = (some 1234, some 56) ∧
    (∀ cpuOf : Nat → List Char → List Char → ℚ × ℚ,
      ∀ r ∈ runSweep
        (fun _ _ _ => "Execution time: 1234 ms\nMemory used: 56 MB\n".data) cpuOf,
      r.execution_time_ms = some 1234 ∧ r.memory_used_mb = some 56) ∧
    extractMetrics
        "Execution time: 7 ms and Execution time: 9 ms\nMemory used: 3 MB and Memory used: 4 MB\n".data
      = (some 7, some 3) := by
  refine ⟨by decide, ?_, by decide⟩
  intro cpuOf r hr
  rw [runSweep_eq_map] at hr
  obtain ⟨k, hk, rfl⟩ := List.mem_map.1 hr
  constructor
  · show (extractMetrics "Execution time: 1234 ms\nMemory used: 56 MB\n".data).1 = some 1234
    decide
  · show (extractMetrics "Execution time: 1234 ms\nMemory used: 56 MB\n".data).2 = some 56
    decide

theorem scrape_first_match_witness :
    (mkRecord (fun _ _ _ => "Execution time: 1234 ms\nMemory used: 56 MB\n".data) constCpu
        (1000000, "ConcurrentSkipList".data, "insert".data)).execution_time_ms = some 1234 ∧
    (mkRecord (fun _ _ _ => "Execution time: 1234 ms\nMemory used: 56 MB\n".data) constCpu
        (1000000, "ConcurrentSkipList".data, "insert".data)).memory_used_mb = some 56 :=
  scrape_first_match.2.1 constCpu _
    (by rw [runSweep_eq_map]; exact List.mem_map_of_mem _ (by decide))

/-- C7: when the worker's standard output is empty, or a pattern is
absent from it, the corresponding fields of the record are null; a
record is still appended for every combination and the sweep runs to
completion (all 88 records are produced). -/
theorem empty_output_gives_nulls (cpuOf : Nat → List Char → List Char → ℚ × ℚ) :
    (runSweep emptyOut cpuOf).length = 88 ∧
    (∀ r ∈ runSweep emptyOut cpuOf,
      r.execution_time_ms = none ∧ r.memory_used_mb = none) ∧
    extractMetrics "Benchmark finished OK\n".data = (none, none) := by
  refine ⟨?_, ?_, by decide⟩
  · rw [runSweep_eq_map, List.length_map]
    decide
  · intro r hr
    rw [runSweep_eq_map] at hr
    obtain ⟨k, hk, rfl⟩ := List.mem_map.1 hr
    exact ⟨by simp [mkRecord, emptyOut, extractMetrics],
           by simp [mkRecord, emptyOut, extractMetrics]⟩

theorem empty_output_gives_nulls_witness :
    (runSweep emptyOut constCpu).length = 88 ∧
    ((mkRecord emptyOut constCpu
        (1000000, "ConcurrentSkipList".data, "insert".data)).execution_time_ms = none ∧
     (mkRecord emptyOut constCpu
        (1000000, "ConcurrentSkipList".data, "insert".data)).memory_used_mb = none) :=
  ⟨(empty_output_gives_nulls constCpu).1,
   (empty_output_gives_nulls constCpu).2.1 _
     (by rw [runSweep_eq_map]; exact List.mem_map_of_mem _ (by decide))⟩

/-- C8: every record's cpuUsagePercent is the arithmetic mean of the
two CPU samples bracketing its worker invocation, and if both samples
lie in [0, 100] then so does the recorded mean. -/
theorem cpu_usage_is_mean (stdoutOf : Nat → List Char → List Char → List Char)
    (cpuOf : Nat → List Char → List Char → ℚ × ℚ) (r : Record)
    (hr : r ∈ runSweep stdoutOf cpuOf) :
    r.cpu_usage_percent
      = ((cpuOf r.querySize r.datastructures_type r.operation).1
          + (cpuOf r.querySize r.datastructures_type r.operation).2) / 2 ∧
    (0 ≤ (cpuOf r.querySize r.datastructures_type r.operation).1 →
     (cpuOf r.querySize r.datastructures_type r.operation).1 ≤ 100 →
     0 ≤ (cpuOf r.querySize r.datastructures_type r.operation).2 →
     (cpuOf r.querySize r.datastructures_type r.operation).2 ≤ 100 →
     0 ≤ r.cpu_usage_percent ∧ r.cpu_usage_percent ≤ 100) := by
  rw [runSweep_eq_map] at hr
  obtain ⟨k, hk, rfl⟩ := List.mem_map.1 hr
  constructor
  · simp [mkRecord]
  · intro hb1 hb2 hb3 hb4
    simp only [mkRecord] at hb1 hb2 hb3 hb4 ⊢
    constructor <;> linarith

theorem cpu_usage_is_mean_witness :
    (mkRecord emptyOut constCpu
        (1000000, "ConcurrentSkipList".data, "insert".data)).cpu_usage_percent
      = ((constCpu
            (mkRecord emptyOut constCpu
              (1000000, "ConcurrentSkipList".data, "insert".data)).querySize
            (mkRecord emptyOut constCpu
              (1000000, "ConcurrentSkipList".data, "insert".data)).datastructures_type
            (mkRecord emptyOut constCpu
              (1000000, "ConcurrentSkipList".data, "insert".data)).operation).1
          + (constCpu
              (mkRecord emptyOut constCpu
                (1000000, "ConcurrentSkipList".data, "insert".data)).querySize
              (mkRecord emptyOut constCpu
                (1000000, "ConcurrentSkipList".data, "insert".data)).datastructures_type
              (mkRecord emptyOut constCpu
                (1000000, "ConcurrentSkipList".data, "insert".data)).operation).2) / 2 ∧
    (0 ≤ (mkRecord emptyOut constCpu
        (1000000, "ConcurrentSkipList".data, "insert".data)).cpu_usage_percent ∧
      (mkRecord emptyOut constCpu
        (1000000, "ConcurrentSkipList".data, "insert".data)).cpu_usage_percent ≤ 100) :=
  ⟨(cpu_usage_is_mean emptyOut constCpu _
      (by rw [runSweep_eq_map]; exact List.mem_map_of_mem _ (by decide))).1,
   (cpu_usage_is_mean emptyOut constCpu _
      (by rw [runSweep_eq_map]; exact List.mem_map_of_mem _ (by decide))).2
     (by decide) (by decide) (by decide) (by decide)⟩

/-- C9: whenever an extracted measurement is non-null it is a
non-negative integer (the patterns match only digit sequences), and a
worker printing a negative or fractional value yields null for that
field. -/
theorem metrics_are_nonneg (stdout : List Char) :
    (∀ v : Int, (extractMetrics stdout).1 = some v → 0 ≤ v) ∧
    (∀ v : Int, (extractMetrics stdout).2 = some v → 0 ≤ v) ∧
    extractMetrics "Execution time: -5 ms\nMemory used: -12 MB\n".data = (none, none) ∧
    extractMetrics "Execution time: 3.5 ms\nMemory used: 2.5 MB\n".data = (none, none) := by
  refine ⟨?_, ?_, by decide, by decide⟩ <;>
  · intro v hv
    by_cases h0 : stdout = []
    · simp only [extractMetrics, if_pos h0] at hv
      simp at hv
    · simp only [extractMetrics, if_neg h0] at hv
      rcases Option.map_eq_some'.1 hv with ⟨n, _, rfl⟩
      exact Int.ofNat_nonneg n

theorem metrics_are_nonneg_witness :
    (extractMetrics "Execution time: 4 ms\nMemory used: 9 MB\n".data).1 = some 4 ∧
    (extractMetrics "Execution time: 4 ms\nMemory used: 9 MB\n".data).2 = some 9 ∧
    (0 : Int) ≤ 4 ∧ (0 : Int) ≤ 9 :=
  ⟨by decide, by decide,
   (metrics_are_nonneg "Execution time: 4 ms\nMemory used: 9 MB\n".data).1 4 (by decide),
   (metrics_are_nonneg "Execution time: 4 ms\nMemory used: 9 MB\n".data).2.1 9 (by decide)⟩

end TestFramework
